import Mathlib

/-!
Shallow embedding of the data pipeline of `streamlit_app.py` (NASA EONET
natural-disaster dashboard): the module-level normalization of raw event
records into a table (lines 49-66), the sidebar option derivation
(lines 75, 82), the filtering of the table (lines 90-93), the decoration of
the filtered copy (line 105), and the top-level branching on the fetch
result (lines 49, 135-136).

Python dictionaries with possibly-missing keys are embedded as structures
with `Option` fields; `dict.get(k, d)` becomes `Option.getD`; pandas
null-able columns become `Option` values; an uncaught exception (such as
`pd.to_datetime` on an unparseable string) is embedded as `none` of the
surrounding computation.  Coordinates are embedded as rationals: the code
only passes them through, never computes with them.
-/

/-- One entry of a raw event's `categories` list (only its `title` is read). -/
structure Category where
  title : String
deriving DecidableEq, Repr

/-- One geometry sample of a raw event.  The code reads the sample's
`date` key with `.get` (may be absent) and its `coordinates` key with
`.get('coordinates', [])` (may be absent), so both are `Option` fields. -/
structure Geometry where
  date : Option String
  coordinates : Option (List ℚ)
deriving DecidableEq, Repr

/-- A raw event as received from upstream, restricted to the columns the
code selects on line 54: `id`, `title`, `categories`, `geometry`. -/
structure RawEvent where
  id : String
  title : String
  categories : List Category
  geometry : List Geometry
deriving DecidableEq, Repr

/-- Line 55: `x[0]['title'] if x else 'N/A'` — an empty list is falsy in
Python, so an empty category list yields the sentinel. -/
def rowCategory (cats : List Category) : String :=
  match cats with
  | [] => "N/A"
  | c :: _ => c.title

/-- Line 59: `geoms[0].get('date') if geoms else None`. -/
def rowDate (geoms : List Geometry) : Option String :=
  match geoms with
  | [] => none
  | g0 :: _ => g0.date

/-- Line 60: `geoms[0]['coordinates'][1] if geoms and
len(geoms[0].get('coordinates', [])) > 1 else None`. -/
def rowLatitude (geoms : List Geometry) : Option ℚ :=
  match geoms with
  | [] => none
  | g0 :: _ =>
    if 1 < (g0.coordinates.getD []).length then (g0.coordinates.getD []).get? 1 else none

/-- Line 61: `geoms[0]['coordinates'][0] if geoms and
len(geoms[0].get('coordinates', [])) > 0 else None`. -/
def rowLongitude (geoms : List Geometry) : Option ℚ :=
  match geoms with
  | [] => none
  | g0 :: _ =>
    if 0 < (g0.coordinates.getD []).length then (g0.coordinates.getD []).get? 0 else none

/-- A dataframe row after lines 54-61: the selected columns plus the
derived `category`, `date`, `latitude`, `longitude` columns (the latter
three null-able). -/
structure Row where
  id : String
  title : String
  category : String
  date : Option String
  latitude : Option ℚ
  longitude : Option ℚ
deriving DecidableEq, Repr

/-- Lines 54-61 applied to one raw event. -/
def mkRow (e : RawEvent) : Row :=
  { id := e.id
    title := e.title
    category := rowCategory e.categories
    date := rowDate e.geometry
    latitude := rowLatitude e.geometry
    longitude := rowLongitude e.geometry }

/-- Line 64: `df.dropna(subset=['latitude', 'longitude', 'date'])` keeps a
row exactly when all three columns are non-null. -/
def keepRow (r : Row) : Bool :=
  r.latitude.isSome && r.longitude.isSome && r.date.isSome

/-- A parsed timestamp, as produced by `pd.to_datetime` on an ISO-8601
string; `tz` is the UTC offset in minutes (`none` for a naive timestamp). -/
structure Timestamp where
  year : Nat
  month : Nat
  day : Nat
  hour : Nat
  minute : Nat
  second : Nat
  tz : Option Int
deriving DecidableEq, Repr

def digitVal (c : Char) : Nat := c.toNat - 48

/-- Read exactly `n` decimal digits, accumulating into `acc`. -/
def readFixedNat : Nat → Nat → List Char → Option (Nat × List Char)
  | 0, acc, cs => some (acc, cs)
  | n + 1, acc, c :: cs =>
    if c.isDigit then readFixedNat n (10 * acc + digitVal c) cs else none
  | _ + 1, _, [] => none

def expectChar (c : Char) : List Char → Option (List Char)
  | d :: cs => if d = c then some cs else none
  | [] => none

def isLeapYear (y : Nat) : Bool :=
  (y % 4 == 0 && y % 100 != 0) || (y % 400 == 0)

def daysInMonth (y m : Nat) : Nat :=
  if m == 2 then (if isLeapYear y then 29 else 28)
  else if m == 4 || m == 6 || m == 9 || m == 11 then 30
  else 31

/-- Optional fractional-seconds part of an ISO-8601 time. -/
def skipFraction : List Char → List Char
  | '.' :: cs => cs.dropWhile Char.isDigit
  | cs => cs

/-- Trailing timezone part of an ISO-8601 string: empty (naive), `Z`
(UTC), or a `±HH:MM` offset. -/
def readTZ : List Char → Option (Option Int)
  | [] => some none
  | ['Z'] => some (some 0)
  | c :: cs =>
    if c = '+' || c = '-' then
      match readFixedNat 2 0 cs with
      | some (hh, cs1) =>
        match expectChar ':' cs1 with
        | some cs2 =>
          match readFixedNat 2 0 cs2 with
          | some (mm, []) =>
            if hh ≤ 23 && mm ≤ 59 then
              some (some (if c = '+' then (hh * 60 + mm : Int) else -(hh * 60 + mm : Int)))
            else none
          | _ => none
        | none => none
      | none => none
    else none

/-- ISO-8601 parsing as performed by `pd.to_datetime` (line 65) on the
upstream date strings: a full date, optionally followed by `T` and a
time with optional fractional seconds and optional `Z`/offset suffix.
Returns `none` when the string does not parse (in which case
`pd.to_datetime` raises). -/
def parseTimestamp (s : String) : Option Timestamp := do
  let cs0 := s.toList
  let (y, cs1) ← readFixedNat 4 0 cs0
  let cs2 ← expectChar '-' cs1
  let (mo, cs3) ← readFixedNat 2 0 cs2
  let cs4 ← expectChar '-' cs3
  let (d, cs5) ← readFixedNat 2 0 cs4
  if 1 ≤ mo ∧ mo ≤ 12 ∧ 1 ≤ d ∧ d ≤ daysInMonth y mo then
    match cs5 with
    | [] => some { year := y, month := mo, day := d, hour := 0, minute := 0, second := 0, tz := none }
    | 'T' :: cs6 => do
      let (hh, cs7) ← readFixedNat 2 0 cs6
      let cs8 ← expectChar ':' cs7
      let (mi, cs9) ← readFixedNat 2 0 cs8
      let cs10 ← expectChar ':' cs9
      let (ss, cs11) ← readFixedNat 2 0 cs10
      let tz ← readTZ (skipFraction cs11)
      if hh ≤ 23 ∧ mi ≤ 59 ∧ ss ≤ 59 then
        some { year := y, month := mo, day := d, hour := hh, minute := mi, second := ss, tz := tz }
      else none
    | _ => none
  else none

/-- A row of the final normalized table (after lines 65-66): the parsed
`date` column and the derived `year` column. -/
structure NormalizedEvent where
  id : String
  title : String
  category : String
  date : Timestamp
  latitude : ℚ
  longitude : ℚ
  year : Nat
deriving DecidableEq, Repr

/-- Lines 65-66 applied to one surviving row: parse its date string and
derive the year.  `none` embeds the `ValueError` raised by
`pd.to_datetime` on an unparseable string. -/
def normalizeRow (r : Row) : Option NormalizedEvent :=
  match r.date, r.latitude, r.longitude with
  | some ds, some la, some lo =>
    match parseTimestamp ds with
    | some t =>
      some { id := r.id, title := r.title, category := r.category,
             date := t, latitude := la, longitude := lo, year := t.year }
    | none => none
  | _, _, _ => none

/-- Apply `f` to every element; `none` as soon as any application fails
(embedding an exception raised mid-column). -/
def mapOrFail (f : α → Option β) : List α → Option (List β)
  | [] => some []
  | a :: l =>
    match f a, mapOrFail f l with
    | some b, some bs => some (b :: bs)
    | _, _ => none

/-- The whole table-building pipeline, lines 51-66: derive the columns for
every event, drop rows with a null latitude, longitude or date, then parse
the date column (raising — `none` — if any surviving date string is
unparseable) and derive the year column. -/
def normalizeEvents (events : List RawEvent) : Option (List NormalizedEvent) :=
  mapOrFail normalizeRow ((events.map mkRow).filter keepRow)

/-- Lines 90-93: `df[(df['year'] == selected_year) &
(df['category'].isin(selected_categories))]`. -/
def filterTable (tbl : List NormalizedEvent) (y : Nat) (cats : List String) :
    List NormalizedEvent :=
  tbl.filter (fun e => e.year == y && cats.contains e.category)

/-- The filtered view as the spec words it: the subsequence of
NormalizedEvents whose year equals the selected year and whose category is
a member of the selected category set. -/
def specFilteredView (tbl : List NormalizedEvent) (y : Nat) (cats : List String) :
    List NormalizedEvent :=
  tbl.filter (fun e => decide (e.year = y ∧ e.category ∈ cats))

/-- The synthetic record "A" of the end-to-end example. -/
def evA : RawEvent :=
  { id := "A", title := "",
    categories := [{ title := "Wildfires" }],
    geometry := [{ date := some "2020-05-01T00:00:00Z", coordinates := some [10, 20] }] }

/-- The synthetic record "B" of the end-to-end example. -/
def evB : RawEvent :=
  { id := "B", title := "", categories := [], geometry := [] }

/-- A geometry sample with a valid date but a single-entry coordinate
list. -/
def geomShort : Geometry :=
  { date := some "2020-01-01T00:00:00Z", coordinates := some [5] }

/-- A record with a non-empty geometry whose coordinate list has a single
entry: it is dropped by the non-null filter although its geometry is
non-empty. -/
def evShortCoords : RawEvent :=
  { id := "D", title := "",
    categories := [{ title := "Floods" }],
    geometry := [geomShort] }

/-- A record whose first geometry date string is not ISO-8601. -/
def evBadDate : RawEvent :=
  { id := "C", title := "",
    categories := [],
    geometry := [{ date := some "not-a-date", coordinates := some [1, 2] }] }

/-- Python truthiness of `events_data` on line 49: `None` (fetch failure)
and the empty list (successful fetch of zero events) are both falsy. -/
def eventsTruthy : Option (List RawEvent) → Bool
  | none => false
  | some es => !es.isEmpty

/-- What the module-level code displays, as a function of the fetch
result and the sidebar selection. -/
inductive AppOutcome where
  /-- The `st.error` on line 136 (the `else` of `if events_data:`). -/
  | errorScreen : AppOutcome
  /-- An uncaught exception from `pd.to_datetime` on line 65. -/
  | crash : AppOutcome
  /-- The data view of lines 99-130 over the filtered rows. -/
  | dataView : List NormalizedEvent → AppOutcome
  /-- The `st.warning` on line 133 (empty filtered view). -/
  | noMatchWarning : AppOutcome
deriving DecidableEq, Repr

/-- The module-level branching of lines 49, 90-93, 98, 133 and 135-136:
`if events_data:` (falsy for both `None` and `[]`), normalization, the
filter, then `if not filtered_df.empty:`. -/
def appOutcome (fetched : Option (List RawEvent)) (selYear : Nat)
    (selCats : List String) : AppOutcome :=
  if eventsTruthy fetched then
    match fetched with
    | none => .errorScreen
    | some es =>
      match normalizeEvents es with
      | none => .crash
      | some tbl =>
        let f := filterTable tbl selYear selCats
        if f.isEmpty then .noMatchWarning else .dataView f
  else .errorScreen

/-- `pandas.unique`: the distinct values of a column in order of first
appearance; `seen` holds the values already emitted. -/
def uniqueFirstAux [DecidableEq α] (seen : List α) : List α → List α
  | [] => []
  | a :: l =>
    if a ∈ seen then uniqueFirstAux seen l
    else a :: uniqueFirstAux (a :: seen) l

def uniqueFirst [DecidableEq α] (l : List α) : List α :=
  uniqueFirstAux [] l

/-- Line 75: `sorted(df['year'].unique(), reverse=True)` — the distinct
years, sorted descending (Python's reverse sort, modeled as the reversal
of an ascending sort of the distinct values). -/
def availableYears (tbl : List NormalizedEvent) : List Nat :=
  ((uniqueFirst (tbl.map (·.year))).insertionSort (· ≤ ·)).reverse

/-- Line 82: `sorted(df['category'].unique())` — the distinct categories,
sorted ascending in code-point order (case-sensitive). -/
def allCategories (tbl : List NormalizedEvent) : List String :=
  (uniqueFirst (tbl.map (·.category))).insertionSort (· ≤ ·)

/-- `strftime` helper: zero-pad to two digits. -/
def pad2 (n : Nat) : String :=
  if n < 10 then "0" ++ toString n else toString n

/-- `strftime` helper: zero-pad to four digits. -/
def pad4 (n : Nat) : String :=
  if n < 10 then "000" ++ toString n
  else if n < 100 then "00" ++ toString n
  else if n < 1000 then "0" ++ toString n
  else toString n

/-- Line 105: `dt.strftime('%Y-%m-%d')`. -/
def fmtDate (t : Timestamp) : String :=
  pad4 t.year ++ "-" ++ pad2 t.month ++ "-" ++ pad2 t.day

/-- A dataframe row after line 105: a normalized event plus the optional
`date_str` column (absent in the base table, set on the filtered copy). -/
structure DRow where
  ev : NormalizedEvent
  date_str : Option String
deriving DecidableEq, Repr

/-- A dataframe's row contents. -/
abbrev Table := List DRow

/-- The heap of live dataframe objects; a dataframe variable is an index
into it, so in-place column assignment is visible as mutation. -/
abbrev Heap := List Table

/-- Dereference a dataframe handle. -/
def heapGet (h : Heap) (r : Nat) : Table := h.getD r []

/-- In-place update of the dataframe behind handle `r`. -/
def heapModify : Heap → Nat → (Table → Table) → Heap
  | [], _, _ => []
  | t :: h, 0, f => f t :: h
  | t :: h, n + 1, f => t :: heapModify h n f

/-- Lines 90-93: `df[(df['year'] == selected_year) &
(df['category'].isin(selected_categories))].copy()` — select by the
boolean mask, then `.copy()` allocates a fresh dataframe object. -/
def filterCopy (h : Heap) (r : Nat) (y : Nat) (cats : List String) : Heap × Nat :=
  (h ++ [(heapGet h r).filter
      (fun row => row.ev.year == y && cats.contains row.ev.category)],
   h.length)

/-- Line 105: `filtered_df['date_str'] = filtered_df['date'].dt.strftime('%Y-%m-%d')`
— an in-place column assignment on the dataframe behind handle `r`. -/
def setDateStr (h : Heap) (r : Nat) : Heap :=
  heapModify h r (fun t => t.map (fun row => { row with date_str := some (fmtDate row.ev.date) }))

/-- Lines 90-105 as a heap transformer: build the filtered copy of the
base table behind `dfRef`, then decorate the copy in place. -/
def displayStep (h : Heap) (dfRef : Nat) (y : Nat) (cats : List String) : Heap × Nat :=
  let (h1, fRef) := filterCopy h dfRef y cats
  (setDateStr h1 fRef, fRef)

/-- The normalized event of the end-to-end example, reused as a sample
table row. -/
def sampleNE : NormalizedEvent :=
  { id := "A", title := "", category := "Wildfires",
    date := { year := 2020, month := 5, day := 1,
              hour := 0, minute := 0, second := 0, tz := some 0 },
    latitude := 20, longitude := 10, year := 2020 }

/-- A one-dataframe heap holding the sample row, `date_str` not yet set. -/
def baseHeap : Heap := [[{ ev := sampleNE, date_str := none }]]

/-- Claim C1: normalizing the two-record synthetic input yields exactly one
NormalizedEvent — id "A", category "Wildfires", date 2020-05-01, latitude
20.0, longitude 10.0, year 2020 — and record "B" is dropped. -/
theorem C1_end_to_end_example :
    normalizeEvents [evA, evB] =
      some [{ id := "A", title := "", category := "Wildfires",
              date := { year := 2020, month := 5, day := 1,
                        hour := 0, minute := 0, second := 0, tz := some 0 },
              latitude := 20, longitude := 10, year := 2020 }] := by
  decide

/-- If `f` fails on any member of the list, the whole traversal fails. -/
theorem mapOrFail_eq_none (f : α → Option β) :
    ∀ (l : List α) (x : α), x ∈ l → f x = none → mapOrFail f l = none := by
  intro l
  induction l with
  | nil => intro x hx _; exact absurd hx (List.not_mem_nil x)
  | cons a l ih =>
    intro x hx hfx
    rcases List.mem_cons.1 hx with h | h
    · subst h
      simp [mapOrFail, hfx]
    · have hrec := ih x h hfx
      cases hfa : f a <;> simp [mapOrFail, hfa, hrec]

/-- Membership in the first-occurrence deduplication. -/
theorem mem_uniqueFirstAux [DecidableEq α] (x : α) :
    ∀ (l seen : List α), x ∈ uniqueFirstAux seen l ↔ x ∈ l ∧ x ∉ seen := by
  intro l
  induction l with
  | nil => intro seen; simp [uniqueFirstAux]
  | cons a l ih =>
    intro seen
    by_cases ha : a ∈ seen
    · rw [uniqueFirstAux, if_pos ha, ih]
      constructor
      · exact fun ⟨h1, h2⟩ => ⟨List.mem_cons_of_mem a h1, h2⟩
      · rintro ⟨h1, h2⟩
        rcases List.mem_cons.1 h1 with h | h
        · exact absurd ha (h ▸ h2)
        · exact ⟨h, h2⟩
    · rw [uniqueFirstAux, if_neg ha]
      constructor
      · intro hmem
        rcases List.mem_cons.1 hmem with h | h
        · exact ⟨List.mem_cons.2 (Or.inl h), by rw [h]; exact ha⟩
        · have := (ih (a :: seen)).1 h
          exact ⟨List.mem_cons_of_mem a this.1,
            fun hs => this.2 (List.mem_cons_of_mem a hs)⟩
      · rintro ⟨h1, h2⟩
        rcases List.mem_cons.1 h1 with h | h
        · exact List.mem_cons.2 (Or.inl h)
        · by_cases hxa : x = a
          · exact List.mem_cons.2 (Or.inl hxa)
          · exact List.mem_cons_of_mem a ((ih (a :: seen)).2
              ⟨h, fun hs => (List.mem_cons.1 hs).elim hxa h2⟩)

/-- The first-occurrence deduplication has no duplicates. -/
theorem nodup_uniqueFirstAux [DecidableEq α] :
    ∀ (l seen : List α), (uniqueFirstAux seen l).Nodup := by
  intro l
  induction l with
  | nil => intro seen; simp [uniqueFirstAux]
  | cons a l ih =>
    intro seen
    by_cases ha : a ∈ seen
    · rw [uniqueFirstAux, if_pos ha]; exact ih seen
    · rw [uniqueFirstAux, if_neg ha]
      refine List.nodup_cons.2 ⟨?_, ih (a :: seen)⟩
      intro hmem
      exact ((mem_uniqueFirstAux a l (a :: seen)).1 hmem).2 (List.mem_cons_self a seen)

theorem mem_uniqueFirst [DecidableEq α] (x : α) (l : List α) :
    x ∈ uniqueFirst l ↔ x ∈ l := by
  rw [uniqueFirst, mem_uniqueFirstAux]
  simp

theorem nodup_uniqueFirst [DecidableEq α] (l : List α) : (uniqueFirst l).Nodup :=
  nodup_uniqueFirstAux l []

/-- In-place update of one heap cell leaves every other cell unchanged. -/
theorem heapGet_heapModify_ne (f : Table → Table) :
    ∀ (h : Heap) (r r' : Nat), r' ≠ r →
      heapGet (heapModify h r f) r' = heapGet h r' := by
  intro h
  induction h with
  | nil => intro r r' _; rfl
  | cons t h ih =>
    intro r r' hne
    cases r with
    | zero =>
      cases r' with
      | zero => exact absurd rfl hne
      | succ n => rfl
    | succ m =>
      cases r' with
      | zero => rfl
      | succ n => exact ih m n (fun e => hne (by rw [e]))

/-- Claim C2 (counterexample): a successful fetch of zero events takes the
very same error branch as a fetch failure — `if events_data:` is falsy for
the empty list, so the `st.error` of line 136 is shown, not an
informational/warning message distinguished from the FetchError case. -/
theorem C2_counterexample :
    appOutcome (some []) 2020 [] = AppOutcome.errorScreen ∧
    appOutcome none 2020 [] = AppOutcome.errorScreen := by
  exact ⟨rfl, rfl⟩

/-- Claim C2 (amended): a fetch failure and a successful fetch of zero
events both surface the error message of line 136; only when a non-empty
fetch normalizes to an empty table does the warning of line 133 appear
instead. -/
theorem C2_empty_result_branches :
    (∀ (y : Nat) (cats : List String),
        appOutcome none y cats = AppOutcome.errorScreen ∧
        appOutcome (some []) y cats = AppOutcome.errorScreen) ∧
    (∀ (es : List RawEvent) (y : Nat) (cats : List String),
        es ≠ [] → normalizeEvents es = some [] →
        appOutcome (some es) y cats = AppOutcome.noMatchWarning) := by
  constructor
  · intro y cats
    exact ⟨rfl, rfl⟩
  · intro es y cats hne hnorm
    have hne' : es.isEmpty = false := by
      cases es with
      | nil => exact absurd rfl hne
      | cons a l => rfl
    simp [appOutcome, eventsTruthy, hne', hnorm, filterTable]

/-- Witness for the amended C2 at a concrete input: the record with empty
geometry normalizes to the empty table, and the warning branch is taken. -/
theorem C2_empty_result_branches_witness :
    ([evB] ≠ ([] : List RawEvent)) ∧ normalizeEvents [evB] = some [] ∧
    appOutcome (some [evB]) 2020 [] = AppOutcome.noMatchWarning :=
  ⟨by decide, by decide,
   C2_empty_result_branches.2 [evB] 2020 [] (by decide) (by decide)⟩

/-- Claim C3 (counterexample): a record whose first geometry date string is
not ISO-8601 is not dropped — `pd.to_datetime` runs after `dropna` and
raises, aborting the whole pipeline (`none`), instead of yielding the
empty table (`some []`). -/
theorem C3_counterexample :
    normalizeEvents [evBadDate] = none ∧
    normalizeEvents [evBadDate] ≠ some [] := by
  decide

/-- Claim C3 (amended): whenever some record passes the non-null filter
but its date string fails ISO-8601 parsing, normalization raises and the
whole pipeline fails (`none`); the record is not dropped individually. -/
theorem C3_unparseable_date_aborts :
    ∀ (l : List RawEvent) (e : RawEvent) (ds : String),
      e ∈ l → (mkRow e).date = some ds →
      (mkRow e).latitude.isSome = true → (mkRow e).longitude.isSome = true →
      parseTimestamp ds = none →
      normalizeEvents l = none := by
  intro l e ds hmem hdate hlat hlon hparse
  have hkeep : keepRow (mkRow e) = true := by
    simp [keepRow, hlat, hlon, hdate]
  have hmem2 : mkRow e ∈ (l.map mkRow).filter keepRow :=
    List.mem_filter.2 ⟨List.mem_map_of_mem mkRow hmem, hkeep⟩
  have hrow : normalizeRow (mkRow e) = none := by
    obtain ⟨la, hla⟩ := Option.isSome_iff_exists.1 hlat
    obtain ⟨lo, hlo⟩ := Option.isSome_iff_exists.1 hlon
    simp [normalizeRow, hdate, hla, hlo, hparse]
  exact mapOrFail_eq_none normalizeRow _ _ hmem2 hrow

/-- Witness for the amended C3 at a concrete input: the unparseable date
string makes the pipeline fail. -/
theorem C3_unparseable_date_aborts_witness :
    evBadDate ∈ [evBadDate] ∧ (mkRow evBadDate).date = some "not-a-date" ∧
    parseTimestamp "not-a-date" = none ∧ normalizeEvents [evBadDate] = none :=
  ⟨by decide, by decide, by decide,
   C3_unparseable_date_aborts [evBadDate] evBadDate "not-a-date" (by decide)
     (by decide) (by decide) (by decide) (by decide)⟩

/-- Claim C4 (counterexample): a record with a non-empty geometry whose
first sample has a single-entry coordinate list is nevertheless dropped,
so survival is not equivalent to a non-empty geometry sequence. -/
theorem C4_counterexample :
    evShortCoords.geometry ≠ [] ∧ normalizeEvents [evShortCoords] = some [] := by
  decide

/-- Claim C4 (amended): the non-null filter keeps a record exactly when
its geometry is non-empty, its first sample carries a date, and that
sample's coordinate list has at least two entries. -/
theorem C4_drop_characterization :
    ∀ (e : RawEvent),
      keepRow (mkRow e) = true ↔
        ∃ g0 rest, e.geometry = g0 :: rest ∧
          g0.date.isSome = true ∧ 2 ≤ (g0.coordinates.getD []).length := by
  intro e
  cases hg : e.geometry with
  | nil =>
    simp [keepRow, mkRow, rowDate, rowLatitude, rowLongitude, hg]
  | cons g0 rest =>
    by_cases h2 : 2 ≤ (g0.coordinates.getD []).length
    · have h1 : 1 < (g0.coordinates.getD []).length := h2
      have h0 : 0 < (g0.coordinates.getD []).length := by omega
      simp [keepRow, mkRow, rowDate, rowLatitude, rowLongitude, hg, h1, h0, h2,
        List.get?_eq_getElem?, List.getElem?_eq_getElem, Bool.and_comm]
    · have h1 : ¬ 1 < (g0.coordinates.getD []).length := by omega
      simp [keepRow, mkRow, rowDate, rowLatitude, rowLongitude, hg, h1, h2]

/-- Claim C5: the filtered view equals the spec's description — the
subsequence of rows whose year equals the selected year and whose category
belongs to the selected set — and an empty category selection yields the
empty view, never the whole table. -/
theorem C5_filter_semantics :
    ∀ (tbl : List NormalizedEvent) (y : Nat) (cats : List String),
      filterTable tbl y cats = specFilteredView tbl y cats ∧
      List.Sublist (filterTable tbl y cats) tbl ∧
      filterTable tbl y [] = [] := by
  intro tbl y cats
  refine ⟨?_, List.filter_sublist tbl, ?_⟩
  · unfold filterTable specFilteredView
    refine List.filter_congr ?_
    intro e _
    by_cases h1 : e.year = y <;> by_cases h2 : e.category ∈ cats <;>
      simp [h1, h2, List.contains_iff_exists_mem_beq]
  · unfold filterTable
    simp

/-- Claim C7: the derived category is the first category entry's title, or
the sentinel "N/A" when the sequence is empty; latitude comes from index 1
and longitude from index 0 of the first geometry sample's coordinates. -/
theorem C7_category_and_coordinates :
    ∀ (e : RawEvent),
      (mkRow e).category =
        (match e.categories with | [] => "N/A" | c :: _ => c.title) ∧
      (∀ (g0 : Geometry) (rest : List Geometry) (cs : List ℚ),
        e.geometry = g0 :: rest → g0.coordinates = some cs → 2 ≤ cs.length →
        (mkRow e).latitude = cs.get? 1 ∧ (mkRow e).longitude = cs.get? 0) := by
  intro e
  constructor
  · rfl
  · intro g0 rest cs hg hc hlen
    have h1 : 1 < cs.length := hlen
    have h0 : 0 < cs.length := by omega
    constructor
    · simp [mkRow, rowLatitude, hg, hc, h1]
    · simp [mkRow, rowLongitude, hg, hc, h0]

/-- Witness for C7 at the concrete record "A": category "Wildfires",
latitude from index 1, longitude from index 0. -/
theorem C7_category_and_coordinates_witness :
    (mkRow evA).category = "Wildfires" ∧
    (mkRow evA).latitude = some 20 ∧ (mkRow evA).longitude = some 10 :=
  ⟨(C7_category_and_coordinates evA).1,
   ((C7_category_and_coordinates evA).2
      { date := some "2020-05-01T00:00:00Z", coordinates := some [10, 20] }
      [] [10, 20] rfl rfl (by decide)).1,
   ((C7_category_and_coordinates evA).2
      { date := some "2020-05-01T00:00:00Z", coordinates := some [10, 20] }
      [] [10, 20] rfl rfl (by decide)).2⟩

/-- Claim C8: producing the filtered copy and setting its `date_str`
column in place never mutates the base dataframe: the heap cell of the
base table is unchanged by the whole display step. -/
theorem C8_base_table_unchanged :
    ∀ (h : Heap) (dfRef : Nat) (y : Nat) (cats : List String),
      dfRef < h.length →
      heapGet ((displayStep h dfRef y cats).1) dfRef = heapGet h dfRef := by
  intro h dfRef y cats hlt
  show heapGet (setDateStr (h ++ [_]) h.length) dfRef = heapGet h dfRef
  rw [setDateStr, heapGet_heapModify_ne _ _ _ _ (Nat.ne_of_lt hlt)]
  exact List.getD_append _ _ _ _ hlt

/-- Witness for C8 on a concrete one-dataframe heap. -/
theorem C8_base_table_unchanged_witness :
    0 < baseHeap.length ∧
    heapGet ((displayStep baseHeap 0 2020 ["Wildfires"]).1) 0 = heapGet baseHeap 0 :=
  ⟨by decide, C8_base_table_unchanged baseHeap 0 2020 ["Wildfires"] (by decide)⟩

/-- Claim C9: for a non-empty normalized table the year options are the
distinct years present, sorted descending, and the category options are
the distinct categories present, sorted ascending (case-sensitive
code-point order). -/
theorem C9_sidebar_options :
    ∀ (tbl : List NormalizedEvent), tbl ≠ [] →
      ((availableYears tbl).Sorted (· ≥ ·) ∧ (availableYears tbl).Nodup ∧
        (∀ y, y ∈ availableYears tbl ↔ y ∈ tbl.map (·.year))) ∧
      ((allCategories tbl).Sorted (· ≤ ·) ∧ (allCategories tbl).Nodup ∧
        (∀ c, c ∈ allCategories tbl ↔ c ∈ tbl.map (·.category))) := by
  intro tbl _
  refine ⟨⟨?_, ?_, ?_⟩, ⟨?_, ?_, ?_⟩⟩
  · rw [availableYears, List.Sorted, List.pairwise_reverse]
    exact List.sorted_insertionSort (· ≤ ·) _
  · rw [availableYears, List.nodup_reverse]
    exact ((List.perm_insertionSort _ _).nodup_iff).2 (nodup_uniqueFirst _)
  · intro y
    rw [availableYears, List.mem_reverse, List.mem_insertionSort, mem_uniqueFirst]
  · exact List.sorted_insertionSort (· ≤ ·) _
  · exact ((List.perm_insertionSort _ _).nodup_iff).2 (nodup_uniqueFirst _)
  · intro c
    rw [allCategories, List.mem_insertionSort, mem_uniqueFirst]

/-- Witness for C9 on a concrete two-row table. -/
theorem C9_sidebar_options_witness :
    ([sampleNE] ≠ ([] : List NormalizedEvent)) ∧
    (((availableYears [sampleNE]).Sorted (· ≥ ·) ∧ (availableYears [sampleNE]).Nodup ∧
        (∀ y, y ∈ availableYears [sampleNE] ↔ y ∈ [sampleNE].map (·.year))) ∧
      ((allCategories [sampleNE]).Sorted (· ≤ ·) ∧ (allCategories [sampleNE]).Nodup ∧
        (∀ c, c ∈ allCategories [sampleNE] ↔ c ∈ [sampleNE].map (·.category)))) :=
  ⟨by decide, C9_sidebar_options [sampleNE] (by decide)⟩

/-- Claim C10: when the first geometry sample lacks a date, lacks a
coordinates key, or has fewer than two coordinate entries, the extracted
fields are absent and the record is dropped by the non-null filter, with
no exception: normalizing the singleton list yields the empty table. -/
theorem C10_missing_fields_dropped :
    ∀ (e : RawEvent) (g0 : Geometry) (rest : List Geometry),
      e.geometry = g0 :: rest →
      (g0.date = none ∨ g0.coordinates = none ∨ (g0.coordinates.getD []).length < 2) →
      keepRow (mkRow e) = false ∧ normalizeEvents [e] = some [] := by
  intro e g0 rest hg hcase
  have hkeep : keepRow (mkRow e) = false := by
    rcases hcase with hd | hc | hlen
    · simp [keepRow, mkRow, rowDate, hg, hd]
    · simp [keepRow, mkRow, rowLatitude, hg, hc]
    · have h1 : ¬ 1 < (g0.coordinates.getD []).length := by omega
      simp [keepRow, mkRow, rowLatitude, hg, h1]
  refine ⟨hkeep, ?_⟩
  simp [normalizeEvents, List.filter, hkeep, mapOrFail]

/-- Witness for C10 at the concrete record with a single-entry coordinate
list. -/
theorem C10_missing_fields_dropped_witness :
    evShortCoords.geometry = geomShort :: [] ∧
    (geomShort.coordinates.getD []).length < 2 ∧
    keepRow (mkRow evShortCoords) = false ∧
    normalizeEvents [evShortCoords] = some [] :=
  ⟨rfl, by decide,
   C10_missing_fields_dropped evShortCoords geomShort [] rfl
     (Or.inr (Or.inr (by decide)))⟩
